import Mathlib

/-!
Verification of the toolhive MCP registry operator.

This file gives a shallow embedding, in Lean 4, of the sync state machine,
the status-update logic, the registry format converter, the registry API
handlers and the ConfigMap source handler of the toolhive operator, and
proves (or refutes) the specification claims about them.

Conventions used throughout:
* Go `time.Time` instants and `time.Duration` values are both modelled as
  `Int` nanoseconds (Go durations are int64 nanoseconds).
* Cluster I/O (client Get / Update, storage Store / Delete) is modelled by
  passing the outcome of each call in explicitly, so every embedded
  function is a pure function of its inputs.
* Go maps that the code only reads in insertion/derived order are modelled
  as association lists.
-/

namespace ToolHive

/-! ### Go durations (nanoseconds), mirroring the `time` package constants -/

def nanosecond : Int := 1

def microsecond : Int := 1000 * nanosecond

def millisecond : Int := 1000 * microsecond

def second : Int := 1000 * millisecond

def minute : Int := 60 * second

def hour : Int := 60 * minute

/-! ### Retry limit constants (cmd/thv-operator/pkg/sync/manager.go) -/

/-- MaxSyncAttempts is the maximum number of sync attempts before giving up. -/
def MaxSyncAttempts : Int := 10

/-- MaxValidationRetries is the maximum number of retries for validation failures. -/
def MaxValidationRetries : Int := 3

/-- MaxHandlerCreationRetries is the maximum number of retries for handler creation failures. -/
def MaxHandlerCreationRetries : Int := 3

/-! ### Sync reason constants (cmd/thv-operator/pkg/sync/manager.go) -/

def ReasonAlreadyInProgress : String := "sync-already-in-progress"

def ReasonRegistryNotReady : String := "registry-not-ready"

def ReasonRetryBackoffActive : String := "retry-backoff-active"

def ReasonSourceDataChanged : String := "source-data-changed"

def ReasonErrorCheckingChanges : String := "error-checking-data-changes"

def ReasonManualWithChanges : String := "manual-sync-with-data-changes"

def ReasonManualNoChanges : String := "manual-sync-no-data-changes"

def ReasonErrorParsingInterval : String := "error-parsing-sync-interval"

def ReasonUpToDateWithPolicy : String := "up-to-date-with-policy"

def ReasonUpToDateNoPolicy : String := "up-to-date-no-policy"

/-! ### Condition type and reason constants -/

def ConditionSourceAvailable : String := "SourceAvailable"

def ConditionDataValid : String := "DataValid"

def ConditionSyncSuccessful : String := "SyncSuccessful"

def conditionReasonHandlerCreationFailed : String := "HandlerCreationFailed"

def conditionReasonValidationFailed : String := "ValidationFailed"

def conditionReasonFetchFailed : String := "FetchFailed"

def conditionReasonStorageFailed : String := "StorageFailed"

def conditionReasonSourceReady : String := "SourceReady"

def conditionReasonDataValid : String := "DataValid"

def conditionReasonSyncCompleted : String := "SyncCompleted"

/-- Registry format constant `RegistryFormatToolHive` (api/v1alpha1/mcpregistry_types.go). -/
def RegistryFormatToolHive : String := "toolhive"

/-- Registry format constant `RegistryFormatUpstream` (api/v1alpha1/mcpregistry_types.go). -/
def RegistryFormatUpstream : String := "upstream"

/-! ### calculateRetryInterval (manager.go lines 713-732) -/

/-- Embeds `DefaultSyncManager.calculateRetryInterval`: exponential backoff
with a 5-minute base, exponent capped at 4 (`min(syncAttempts-1, 4)`), and a
final cap of 1 hour.  `1 <<< n` in the Go source is written `2 ^ n` here. -/
def calculateRetryInterval (syncAttempts : Int) : Int :=
  let baseInterval := 5 * minute
  let maxInterval := 1 * hour
  if syncAttempts ≤ 0 then
    baseInterval
  else
    let exponent := min (syncAttempts - 1) 4
    let interval := baseInterval * (2 ^ exponent.toNat)
    min interval maxInterval

/-! ### Registry phases and the status subresource -/

/-- The `MCPRegistryPhase` values used across the operator sources. -/
inductive MCPRegistryPhase where
  | pending
  | syncing
  | ready
  | failed
  | updating
  | terminating
deriving DecidableEq, Repr

/-- Type `StorageReference` from the CRD types: an opaque reference to the
persisted registry data (only identity matters for the claims). -/
structure StorageReference where
  type_ : String
  Name : String
  Namespace : String
deriving DecidableEq, Repr

/-- Type `metav1.ConditionStatus` (`"True"`, `"False"`, `"Unknown"`). -/
inductive ConditionStatus where
  | isTrue
  | isFalse
  | isUnknown
deriving DecidableEq, Repr

/-- Type `metav1.Condition` (LastTransitionTime as `Int` nanoseconds). -/
structure Condition where
  type_ : String
  Status : ConditionStatus
  Reason : String
  Message : String
  LastTransitionTime : Int
deriving DecidableEq, Repr

/-- Embeds `meta.SetStatusCondition`: if a condition of the same type already
exists, its status/reason/message are replaced and LastTransitionTime is
refreshed only when the status actually changed; otherwise the new
condition is appended with LastTransitionTime set to `now`. -/
def setStatusCondition (conditions : List Condition) (newCond : Condition) (now : Int) :
    List Condition :=
  match conditions.find? (fun c => c.type_ = newCond.type_) with
  | none => conditions ++ [{ newCond with LastTransitionTime := now }]
  | some existing =>
      conditions.map fun c =>
        if c.type_ = newCond.type_ then
          { type_ := c.type_
            Status := newCond.Status
            Reason := newCond.Reason
            Message := newCond.Message
            LastTransitionTime :=
              if existing.Status ≠ newCond.Status then now else existing.LastTransitionTime }
        else c

/-- The declaration's status subresource (`MCPRegistryStatus`), with the
fields used by the sync manager and controller sources. -/
structure MCPRegistryStatus where
  Phase : MCPRegistryPhase
  Message : String
  Conditions : List Condition
  LastSyncTime : Option Int
  LastSyncHash : String
  ServerCount : Int
  SyncAttempts : Int
  NextRetryTime : Option Int
  StorageRef : Option StorageReference
  LastManualSyncTrigger : String
deriving DecidableEq, Repr

/-- Type `ctrl.Result`: only `RequeueAfter` is used by the embedded code paths. -/
structure CtrlResult where
  RequeueAfter : Int
deriving DecidableEq, Repr

/-! ### The composed status update (manager.go lines 195-213) -/

/-- Struct `syncData`: sync-specific status fields of a composed update. -/
structure syncData where
  LastSyncTime : Option Int
  LastSyncHash : String
  ServerCount : Int
  StorageRef : Option StorageReference
  SyncAttempts : Int
  NextRetryTime : Option Int
  LastManualSyncTrigger : String
deriving DecidableEq, Repr

/-- The zero `syncData` (Go zero value of the struct). -/
def syncData.zero : syncData :=
  { LastSyncTime := none
    LastSyncHash := ""
    ServerCount := 0
    StorageRef := none
    SyncAttempts := 0
    NextRetryTime := none
    LastManualSyncTrigger := "" }

/-- Struct `statusUpdate`: all status changes of a single sync operation. -/
structure statusUpdate where
  Phase : MCPRegistryPhase
  Message : String
  Conditions : List Condition
  SyncData : Option syncData
  RetryResult : Option CtrlResult
deriving DecidableEq, Repr

/-- Embeds the pure part of `DefaultSyncManager.applyFinalStatusUpdate`
(manager.go lines 458-522): `st` is the status of the freshly refreshed
object, and the function applies phase, message, the guarded sync-data
fields (`LastSyncTime` only when non-nil, `LastSyncHash` and
`LastManualSyncTrigger` only when non-empty, `ServerCount` only when
positive, `StorageRef` only when non-nil; `NextRetryTime` and
`SyncAttempts` unconditionally) and the conditions, and returns the new
status together with the `ctrl.Result` to hand back. -/
def applyFinalStatusUpdate (st : MCPRegistryStatus) (update : statusUpdate) (now : Int) :
    MCPRegistryStatus × CtrlResult :=
  let st1 := { st with Phase := update.Phase, Message := update.Message }
  let st2 :=
    match update.SyncData with
    | none => st1
    | some sd =>
        let a := if sd.LastSyncTime.isSome then { st1 with LastSyncTime := sd.LastSyncTime } else st1
        let b := if sd.LastSyncHash ≠ "" then { a with LastSyncHash := sd.LastSyncHash } else a
        let c := if sd.ServerCount > 0 then { b with ServerCount := sd.ServerCount } else b
        let d := if sd.StorageRef.isSome then { c with StorageRef := sd.StorageRef } else c
        let e :=
          if sd.LastManualSyncTrigger ≠ "" then
            { d with LastManualSyncTrigger := sd.LastManualSyncTrigger }
          else d
        { e with NextRetryTime := sd.NextRetryTime, SyncAttempts := sd.SyncAttempts }
  let st3 :=
    { st2 with
      Conditions := update.Conditions.foldl (fun cs c => setStatusCondition cs c now) st2.Conditions }
  (st3, update.RetryResult.getD { RequeueAfter := 0 })

/-! ### The declaration (MCPRegistry custom resource) -/

/-- Struct `ConfigMapRegistrySource`: the configmap sub-block of a source. -/
structure ConfigMapRegistrySource where
  Name : String
  Namespace : String
  Key : String
deriving DecidableEq, Repr

/-- Struct `MCPRegistrySource` (`source.type`, `source.format`, configmap sub-block). -/
structure MCPRegistrySource where
  type_ : String
  Format : String
  ConfigMap : Option ConfigMapRegistrySource
deriving DecidableEq, Repr

/-- Struct `SyncPolicy` (only the interval matters for the embedded paths). -/
structure SyncPolicySpec where
  Interval : String
deriving DecidableEq, Repr

/-- Struct `MCPRegistrySpec`: source, top-level format (used by the ConfigMap
handler), sync policy, and filter presence (the filter engine itself is
out of the claims' scope, so only presence/its oracle output are kept). -/
structure MCPRegistrySpec where
  Source : MCPRegistrySource
  Format : String
  SyncPolicy : Option SyncPolicySpec
  hasFilter : Bool
deriving DecidableEq, Repr

/-- The declaration: metadata (name, namespace, annotations) plus spec and
status.  Annotations are `none` when the Go annotations map is nil. -/
structure MCPRegistry where
  Name : String
  Namespace : String
  Annotations : Option (List (String × String))
  Spec : MCPRegistrySpec
  Status : MCPRegistryStatus
deriving DecidableEq, Repr

/-- The manual sync trigger annotation key.  The constant
`SyncTriggerAnnotation` is declared in a sync-package file not present in
the source snapshot; its key value follows the spec's
`<vendor>/sync-trigger` with the operator's vendor prefix. -/
def syncTriggerKey : String := "toolhive.stacklok.dev/sync-trigger"

/-- Value of the sync-trigger annotation as the Go code reads it: `""` when
the annotations map is nil or the key is absent. -/
def triggerAnnotationValue (reg : MCPRegistry) : String :=
  match reg.Annotations with
  | none => ""
  | some anns => (anns.lookup syncTriggerKey).getD ""

/-! ### ShouldSync (manager.go lines 138-193) -/

/-- Builder for the `metav1.Condition` literals in manager.go (their
`LastTransitionTime` is the zero value; `SetStatusCondition` stamps it). -/
def mkCondition (t : String) (s : ConditionStatus) (reason message : String) : Condition :=
  { type_ := t, Status := s, Reason := reason, Message := message, LastTransitionTime := 0 }

/-- Result of `ShouldSync`: `(syncNow, reason, nextCheck, error)`, with the
Go `error` return modelled as a Bool (`true` = non-nil error). -/
structure ShouldSyncResult where
  syncNeeded : Bool
  reason : String
  nextCheck : Option Int
  hasError : Bool
deriving DecidableEq, Repr

/-- Outcomes of the collaborators `ShouldSync` consults once the registry
is in `Ready` phase: the data change detector, the manual sync checker and
the automatic sync checker (each an interface whose default implementation
does cluster/clock I/O, so their results are inputs here). -/
structure ShouldSyncEnv where
  dataChanged : Except Unit Bool
  manualSyncRequested : Bool
  intervalNextSync : Except Unit Int
deriving Repr

/-- Embeds `DefaultSyncManager.ShouldSync`.  Decision order as in the
source: Syncing short-circuits; a non-Ready phase checks the Failed
backoff window (`now.Before(nextRetryTime)` is strict `<`) and otherwise
syncs as `registry-not-ready`; in Ready phase the data-change, manual
trigger, and sync-policy checks run in order. -/
def shouldSync (env : ShouldSyncEnv) (reg : MCPRegistry) (now : Int) : ShouldSyncResult :=
  let st := reg.Status
  if st.Phase = .syncing then
    { syncNeeded := false, reason := ReasonAlreadyInProgress, nextCheck := none, hasError := false }
  else if st.Phase ≠ .ready then
    match st.Phase, st.NextRetryTime with
    | .failed, some t =>
        if now < t then
          { syncNeeded := false, reason := ReasonRetryBackoffActive, nextCheck := some t,
            hasError := false }
        else
          { syncNeeded := true, reason := ReasonRegistryNotReady, nextCheck := none,
            hasError := false }
    | _, _ =>
        { syncNeeded := true, reason := ReasonRegistryNotReady, nextCheck := none,
          hasError := false }
  else
    match env.dataChanged with
    | .error _ =>
        { syncNeeded := true, reason := ReasonErrorCheckingChanges, nextCheck := none,
          hasError := true }
    | .ok dataChanged =>
        if env.manualSyncRequested then
          if dataChanged then
            { syncNeeded := true, reason := ReasonManualWithChanges, nextCheck := none,
              hasError := false }
          else
            { syncNeeded := true, reason := ReasonManualNoChanges, nextCheck := none,
              hasError := false }
        else if dataChanged then
          { syncNeeded := true, reason := ReasonSourceDataChanged, nextCheck := none,
            hasError := false }
        else
          match reg.Spec.SyncPolicy with
          | some _ =>
              match env.intervalNextSync with
              | .error _ =>
                  { syncNeeded := true, reason := ReasonErrorParsingInterval, nextCheck := none,
                    hasError := true }
              | .ok nextSyncTime =>
                  { syncNeeded := false, reason := ReasonUpToDateWithPolicy,
                    nextCheck := some nextSyncTime, hasError := false }
          | none =>
              { syncNeeded := false, reason := ReasonUpToDateNoPolicy, nextCheck := none,
                hasError := false }

/-! ### PerformSync branch structure (manager.go lines 216-455) -/

/-- A canonical `Registry` as the filter service and storage see it:
association lists for the `servers` and `remoteServers` maps, with values
irrelevant to the counting logic kept abstract at `Unit` here (the full
JSON-level registry model used by the converter lives further below). -/
structure CountedRegistry where
  Servers : List (String × Unit)
  RemoteServers : List (String × Unit)
deriving DecidableEq, Repr

/-- Which step of the sync pipeline fails (or none): handler creation,
source validation, fetch, storage — in the textual order of the
`PerformSync` branches. -/
inductive SyncOutcome where
  | handlerError
  | validationError
  | fetchError
  | storageError
  | success
deriving DecidableEq, Repr

/-- Outcomes of the collaborators `PerformSync` drives: which step fails,
the fetch result fields, the filter service's pruned registry (consulted
when `spec.filter` is set), and the storage reference. -/
structure SyncEnv where
  outcome : SyncOutcome
  errMsg : String
  fetchHash : String
  fetchServerCount : Int
  filteredRegistry : CountedRegistry
  storageRef : StorageReference
deriving DecidableEq, Repr

/-- Embeds the effect of `applyFilteringIfConfigured` (manager.go lines
650-687) on the fetch result's server count: when a filter is configured
the count becomes `len(filtered.Servers) + len(filtered.RemoteServers)`,
otherwise the handler's count stands. -/
def filteredServerCount (reg : MCPRegistry) (env : SyncEnv) : Int :=
  if reg.Spec.hasFilter then
    (env.filteredRegistry.Servers.length : Int) + (env.filteredRegistry.RemoteServers.length : Int)
  else
    env.fetchServerCount

/-- The composed `statusUpdate` that `PerformSync` hands to
`applyFinalStatusUpdate`, by branch (manager.go lines 227-454).  Failure
branches first check the per-kind retry limit against the *current*
`Status.SyncAttempts` and then either give up (no requeue, no next retry
time) or schedule a retry; the success branch composes the full Ready
update, consuming a non-empty manual trigger annotation value. -/
def performSyncUpdate (env : SyncEnv) (reg : MCPRegistry) (now : Int) : statusUpdate :=
  let st := reg.Status
  match env.outcome with
  | .handlerError =>
      if st.SyncAttempts ≥ MaxHandlerCreationRetries then
        { Phase := .failed
          Message := "Failed to create source handler after " ++ toString st.SyncAttempts
            ++ " attempts: " ++ env.errMsg
          Conditions := [mkCondition ConditionSourceAvailable .isFalse conditionReasonHandlerCreationFailed env.errMsg]
          SyncData := some { syncData.zero with SyncAttempts := st.SyncAttempts + 1 }
          RetryResult := some { RequeueAfter := 0 } }
      else
        { Phase := .failed
          Message := "Failed to create source handler: " ++ env.errMsg
          Conditions := [mkCondition ConditionSourceAvailable .isFalse conditionReasonHandlerCreationFailed env.errMsg]
          SyncData := some { syncData.zero with
            SyncAttempts := st.SyncAttempts + 1
            NextRetryTime := some (now + hour) }
          RetryResult := some { RequeueAfter := hour } }
  | .validationError =>
      if st.SyncAttempts ≥ MaxValidationRetries then
        { Phase := .failed
          Message := "Source validation failed after " ++ toString st.SyncAttempts
            ++ " attempts: " ++ env.errMsg
          Conditions := [mkCondition ConditionSourceAvailable .isFalse conditionReasonValidationFailed env.errMsg]
          SyncData := some { syncData.zero with SyncAttempts := st.SyncAttempts + 1 }
          RetryResult := some { RequeueAfter := 0 } }
      else
        { Phase := .failed
          Message := "Source validation failed: " ++ env.errMsg
          Conditions := [mkCondition ConditionSourceAvailable .isFalse conditionReasonValidationFailed env.errMsg]
          SyncData := some { syncData.zero with
            SyncAttempts := st.SyncAttempts + 1
            NextRetryTime := some (now + hour) }
          RetryResult := some { RequeueAfter := hour } }
  | .fetchError =>
      if st.SyncAttempts ≥ MaxSyncAttempts then
        { Phase := .failed
          Message := "Fetch failed after " ++ toString st.SyncAttempts ++ " attempts: "
            ++ env.errMsg
          Conditions := [mkCondition ConditionSyncSuccessful .isFalse conditionReasonFetchFailed env.errMsg]
          SyncData := some { syncData.zero with SyncAttempts := st.SyncAttempts + 1 }
          RetryResult := some { RequeueAfter := 0 } }
      else
        let retryInterval := calculateRetryInterval st.SyncAttempts
        { Phase := .failed
          Message := "Fetch failed: " ++ env.errMsg
          Conditions := [mkCondition ConditionSyncSuccessful .isFalse conditionReasonFetchFailed env.errMsg]
          SyncData := some { syncData.zero with
            SyncAttempts := st.SyncAttempts + 1
            NextRetryTime := some (now + retryInterval) }
          RetryResult := some { RequeueAfter := retryInterval } }
  | .storageError =>
      if st.SyncAttempts ≥ MaxSyncAttempts then
        { Phase := .failed
          Message := "Storage failed after " ++ toString st.SyncAttempts ++ " attempts: "
            ++ env.errMsg
          Conditions := [mkCondition ConditionSyncSuccessful .isFalse conditionReasonStorageFailed env.errMsg]
          SyncData := some { syncData.zero with SyncAttempts := st.SyncAttempts + 1 }
          RetryResult := some { RequeueAfter := 0 } }
      else
        let retryInterval := calculateRetryInterval st.SyncAttempts
        { Phase := .failed
          Message := "Storage failed: " ++ env.errMsg
          Conditions := [mkCondition ConditionSyncSuccessful .isFalse conditionReasonStorageFailed env.errMsg]
          SyncData := some { syncData.zero with
            SyncAttempts := st.SyncAttempts + 1
            NextRetryTime := some (now + retryInterval) }
          RetryResult := some { RequeueAfter := retryInterval } }
  | .success =>
      let lastManualSyncTrigger := triggerAnnotationValue reg
      { Phase := .ready
        Message := "Registry is ready and synchronized"
        Conditions :=
          [mkCondition ConditionSourceAvailable .isTrue conditionReasonSourceReady
              "Source configuration is valid and accessible",
            mkCondition ConditionDataValid .isTrue conditionReasonDataValid
              "Registry data is valid and parsed successfully",
            mkCondition ConditionSyncSuccessful .isTrue conditionReasonSyncCompleted
              "Registry sync completed successfully"]
        SyncData := some
          { LastSyncTime := some now
            LastSyncHash := env.fetchHash
            ServerCount := filteredServerCount reg env
            StorageRef := some env.storageRef
            SyncAttempts := 0
            NextRetryTime := none
            LastManualSyncTrigger := lastManualSyncTrigger }
        RetryResult := some { RequeueAfter := 0 } }

/-- Function `PerformSync` end to end (with the refresh inside
`applyFinalStatusUpdate` assumed to return the same status the branch was
decided on): composes the branch's `statusUpdate` and applies it. -/
def performSync (env : SyncEnv) (reg : MCPRegistry) (now : Int) :
    MCPRegistryStatus × CtrlResult :=
  applyFinalStatusUpdate reg.Status (performSyncUpdate env reg now) now

/-! ### UpdateManualSyncTriggerOnly (manager.go lines 524-551) -/

/-- Embeds `DefaultSyncManager.UpdateManualSyncTriggerOnly`: if the
annotations map is non-nil and the sync-trigger annotation value is
non-empty, only `Status.LastManualSyncTrigger` is set; the returned
`ctrl.Result` is empty (no requeue). -/
def updateManualSyncTriggerOnly (reg : MCPRegistry) : MCPRegistryStatus × CtrlResult :=
  let st := reg.Status
  let st :=
    match reg.Annotations with
    | none => st
    | some anns =>
        let triggerValue := (anns.lookup syncTriggerKey).getD ""
        if triggerValue ≠ "" then { st with LastManualSyncTrigger := triggerValue } else st
  (st, { RequeueAfter := 0 })

/-- The controller's dispatch on the `ShouldSync` outcome inside
`reconcileSync` (mcpregistry_controller.go): no sync, the
manual-trigger-only fast path, or a full `PerformSync`. -/
inductive SyncAction where
  | noSync
  | updateTriggerOnly
  | fullSync
deriving DecidableEq, Repr

/-- Embeds the dispatch in `MCPRegistryReconciler.reconcileSync`: when sync
is not needed nothing runs; when the reason is
`manual-sync-no-data-changes` only `UpdateManualSyncTriggerOnly` runs;
otherwise `PerformSync` runs. -/
def reconcileSyncDispatch (syncNeeded : Bool) (reason : String) : SyncAction :=
  if ¬ syncNeeded then .noSync
  else if reason = ReasonManualNoChanges then .updateTriggerOnly
  else .fullSync

/-! ### Finalization (mcpregistry_controller.go) -/

/-- Outcome of a cluster write, as seen by the controller. -/
inductive EffectResult where
  | ok
  | err
deriving DecidableEq, Repr

/-- The cluster-call outcomes a deletion reconcile depends on: the status
update to `Terminating` inside `finalizeMCPRegistry`, the storage
deletion (`syncManager.Delete`), and the object update that persists the
finalizer removal. -/
structure FinalizeEnv where
  statusUpdateResult : EffectResult
  storageDeleteResult : EffectResult
  removeFinalizerUpdateResult : EffectResult
deriving DecidableEq, Repr

/-- Embeds `MCPRegistryReconciler.finalizeMCPRegistry`: a failed status
update to `Terminating` is returned as an error; a failed storage
deletion is only logged — the source comment reads "Continue with
finalization even if storage cleanup fails" — and finalization still
succeeds. -/
def finalizeMCPRegistry (env : FinalizeEnv) : EffectResult :=
  match env.statusUpdateResult with
  | .err => .err
  | .ok =>
      match env.storageDeleteResult with
      | .err => .ok
      | .ok => .ok

/-- Result of the deletion branch of `Reconcile`: whether an error was
returned to the work queue and whether the finalizer is still attached
after the run. -/
structure ReconcileDeletionResult where
  errorReturned : Bool
  finalizerPresent : Bool
deriving DecidableEq, Repr

/-- Embeds the deletion branch of `MCPRegistryReconciler.Reconcile`: when
the finalizer is present, a failing `finalizeMCPRegistry` propagates the
error and keeps the finalizer; otherwise the finalizer is removed and the
removal persisted (a failing persist keeps the cluster object's finalizer
and propagates the error). -/
def reconcileDeletion (env : FinalizeEnv) (hasFinalizer : Bool) : ReconcileDeletionResult :=
  if hasFinalizer then
    match finalizeMCPRegistry env with
    | .err => { errorReturned := true, finalizerPresent := true }
    | .ok =>
        match env.removeFinalizerUpdateResult with
        | .err => { errorReturned := true, finalizerPresent := true }
        | .ok => { errorReturned := false, finalizerPresent := false }
  else
    { errorReturned := false, finalizerPresent := false }

/-! ### Readiness endpoint (registry API server) -/

/-- Embeds `Server.handleReadiness`: the handler issues a single client
`Get` for the declaration and returns 503 when it errors, 200 otherwise;
the retrieved object's contents are not inspected. -/
def handleReadiness (getRegistryResult : Option MCPRegistry) : Int :=
  match getRegistryResult with
  | none => 503
  | some _ => 200

/-! ### JSON values and parsing

The Go sources lean on `encoding/json`; the registry payloads are JSON
bytes.  JSON documents are modelled by the `Json` inductive and
`encoding/json` behaviour (parse, duplicate keys last-wins, permissive
struct decoding that ignores unknown fields and accepts `null` anywhere)
by the functions below.  JSON numbers are kept as their source lexeme: the
registry schemas only use strings, objects and arrays, so numeric value
semantics never matter, only that a number is not a string. -/

inductive Json where
  | null
  | bool (b : Bool)
  | num (raw : String)
  | str (s : String)
  | arr (elems : List Json)
  | obj (fields : List (String × Json))
deriving Repr

/-- Skip JSON whitespace. -/
def skipWs : List Char → List Char
  | [] => []
  | c :: cs => if c = ' ' ∨ c = '\t' ∨ c = '\n' ∨ c = '\r' then skipWs cs else c :: cs

/-- Hex digit value. -/
def hexDigitVal (c : Char) : Option Nat :=
  if '0' ≤ c ∧ c ≤ '9' then some (c.toNat - 48)
  else if 'a' ≤ c ∧ c ≤ 'f' then some (c.toNat - 87)
  else if 'A' ≤ c ∧ c ≤ 'F' then some (c.toNat - 55)
  else none

/-- Parse the body of a JSON string (the opening quote already consumed),
handling the standard escapes. -/
def parseStringBody (acc : List Char) : List Char → Option (String × List Char)
  | [] => none
  | c :: cs =>
    if c = '"' then some (String.mk acc.reverse, cs)
    else if c = '\\' then
      match cs with
      | [] => none
      | e :: cs2 =>
        if e = '"' then parseStringBody ('"' :: acc) cs2
        else if e = '\\' then parseStringBody ('\\' :: acc) cs2
        else if e = '/' then parseStringBody ('/' :: acc) cs2
        else if e = 'b' then parseStringBody ('\x08' :: acc) cs2
        else if e = 'f' then parseStringBody ('\x0c' :: acc) cs2
        else if e = 'n' then parseStringBody ('\n' :: acc) cs2
        else if e = 'r' then parseStringBody ('\r' :: acc) cs2
        else if e = 't' then parseStringBody ('\t' :: acc) cs2
        else if e = 'u' then
          match cs2 with
          | h1 :: h2 :: h3 :: h4 :: cs3 =>
            match hexDigitVal h1, hexDigitVal h2, hexDigitVal h3, hexDigitVal h4 with
            | some a, some b, some c', some d =>
                let n := ((a * 16 + b) * 16 + c') * 16 + d
                if h : n.isValidChar then parseStringBody (Char.ofNatAux n h :: acc) cs3
                else none
            | _, _, _, _ => none
          | _ => none
        else none
    else parseStringBody (c :: acc) cs

/-- Take a (possibly empty) run of decimal digits. -/
def takeDigits : List Char → List Char × List Char
  | [] => ([], [])
  | c :: cs =>
    if '0' ≤ c ∧ c ≤ '9' then
      let (ds, rest) := takeDigits cs
      (c :: ds, rest)
    else ([], c :: cs)

/-- Parse a JSON number lexeme (`-?(0|[1-9][0-9]*)(.[0-9]+)?([eE][+-]?[0-9]+)?`),
returning the raw lexeme. -/
def parseNumberLexeme (cs : List Char) : Option (String × List Char) :=
  let (neg, cs1) : List Char × List Char :=
    match cs with
    | '-' :: rest => (['-'], rest)
    | _ => ([], cs)
  let (intDigits, cs2) := takeDigits cs1
  match intDigits with
  | [] => none
  | d0 :: drest =>
    if d0 = '0' ∧ drest ≠ [] then none
    else
      let (fracPart, cs3) : List Char × List Char :=
        match cs2 with
        | '.' :: rest =>
          let (fd, r) := takeDigits rest
          if fd = [] then ([], cs2) else ('.' :: fd, r)
        | _ => ([], cs2)
      if fracPart = [] ∧ cs2.head? = some '.' then none
      else
        let (expPart, cs4) : List Char × List Char :=
          match cs3 with
          | e :: rest =>
            if e = 'e' ∨ e = 'E' then
              match rest with
              | s :: rest2 =>
                if s = '+' ∨ s = '-' then
                  let (ed, r) := takeDigits rest2
                  if ed = [] then ([], cs3) else (e :: s :: ed, r)
                else
                  let (ed, r) := takeDigits rest
                  if ed = [] then ([], cs3) else (e :: ed, r)
              | [] => ([], cs3)
            else ([], cs3)
          | [] => ([], cs3)
        some (String.mk (neg ++ intDigits ++ fracPart ++ expPart), cs4)

/-- Expect a literal keyword. -/
def expectChars : List Char → List Char → Option (List Char)
  | [], rest => some rest
  | k :: ks, c :: cs => if c = k then expectChars ks cs else none
  | _ :: _, [] => none

mutual

/-- Parse one JSON value (fuel-bounded recursive descent; the fuel passed
by `parseJson` always suffices for its input). -/
def parseValue : Nat → List Char → Option (Json × List Char)
  | 0, _ => none
  | fuel + 1, cs =>
    match skipWs cs with
    | [] => none
    | c :: cs' =>
      if c = '\x7b' then
        match skipWs cs' with
        | '\x7d' :: rest => some (Json.obj [], rest)
        | rest =>
          match parseMembers fuel rest with
          | some (fields, rest2) =>
            match skipWs rest2 with
            | '\x7d' :: rest3 => some (Json.obj fields, rest3)
            | _ => none
          | none => none
      else if c = '[' then
        match skipWs cs' with
        | ']' :: rest => some (Json.arr [], rest)
        | rest =>
          match parseElements fuel rest with
          | some (elems, rest2) =>
            match skipWs rest2 with
            | ']' :: rest3 => some (Json.arr elems, rest3)
            | _ => none
          | none => none
      else if c = '"' then
        match parseStringBody [] cs' with
        | some (s, rest) => some (Json.str s, rest)
        | none => none
      else if c = 't' then (expectChars ['r', 'u', 'e'] cs').map (Json.bool true, ·)
      else if c = 'f' then (expectChars ['a', 'l', 's', 'e'] cs').map (Json.bool false, ·)
      else if c = 'n' then (expectChars ['u', 'l', 'l'] cs').map (Json.null, ·)
      else
        match parseNumberLexeme (c :: cs') with
        | some (raw, rest) => some (Json.num raw, rest)
        | none => none

/-- Parse one or more `"key": value` members separated by commas. -/
def parseMembers : Nat → List Char → Option (List (String × Json) × List Char)
  | 0, _ => none
  | fuel + 1, cs =>
    match skipWs cs with
    | '"' :: cs' =>
      match parseStringBody [] cs' with
      | some (key, rest) =>
        match skipWs rest with
        | ':' :: rest2 =>
          match parseValue fuel rest2 with
          | some (v, rest3) =>
            match skipWs rest3 with
            | ',' :: rest4 =>
              match parseMembers fuel rest4 with
              | some (fields, rest5) => some ((key, v) :: fields, rest5)
              | none => none
            | rest4 => some ([(key, v)], rest4)
          | none => none
        | _ => none
      | none => none
    | _ => none

/-- Parse one or more array elements separated by commas. -/
def parseElements : Nat → List Char → Option (List Json × List Char)
  | 0, _ => none
  | fuel + 1, cs =>
    match parseValue fuel cs with
    | some (v, rest) =>
      match skipWs rest with
      | ',' :: rest2 =>
        match parseElements fuel rest2 with
        | some (elems, rest3) => some (v :: elems, rest3)
        | none => none
      | rest2 => some ([v], rest2)
    | none => none

end

/-- A `json.Unmarshal`-style whole-document parse: one value, then only
trailing whitespace. -/
def parseJson (s : String) : Option Json :=
  match parseValue (4 * (s.length + 1)) s.data with
  | some (v, rest) => if (skipWs rest).isEmpty then some v else none
  | none => none

/-- Go duplicate-key semantics: the last occurrence of a key wins. -/
def lookupLast (fields : List (String × Json)) (key : String) : Option Json :=
  ((fields.filter (fun f => f.1 = key)).getLast?).map (fun f => f.2)

/-! ### `encoding/json` struct-decoding helpers -/

/-- Decode a string-typed struct field: absent or `null` leaves the zero
value `""`; a JSON string yields its value; any other shape is an
unmarshal error (`none`). -/
def decStr : Option Json → Option String
  | none => some ""
  | some .null => some ""
  | some (.str s) => some s
  | some _ => none

/-- Decode a JSON array of strings. -/
def decStringArray : Json → Option (List String)
  | .arr xs =>
      xs.foldr
        (fun j acc =>
          match j, acc with
          | .str s, some l => some (s :: l)
          | _, _ => none)
        (some [])
  | _ => none

/-- Decode a `[]string` struct field: absent or `null` gives the nil slice. -/
def decStrList : Option Json → Option (Option (List String))
  | none => some none
  | some .null => some none
  | some j => (decStringArray j).map some

/-! ### The canonical registry schema (`pkg/registry`)

The `pkg/registry` package itself is not part of the source snapshot (only
its callers are), so its types are modelled from the spec.  Modelled from
the spec: §3.1/§6.2 — canonical `Registry` is
`\x7bversion, lastUpdated, servers: map<name, ImageServer>,
remoteServers: map<name, RemoteServer>\x7d`, upstream is
`map<name, \x7bserver: \x7bname, description, ...\x7d, packages\x7d>`. -/

/-- An image-backed server (canonical `registry.ImageMetadata`).
Modelled from the spec: §3.1 `BaseServer` fields plus `image`. -/
structure ImageMetadata where
  Name : String
  Description : String
  Tier : String
  Status : String
  Transport : String
  Tools : Option (List String)
  Tags : Option (List String)
  Image : String
deriving Repr

/-- A remote server (canonical `registry.RemoteServerMetadata`).
Modelled from the spec: §3.1 `BaseServer` fields plus `url`. -/
structure RemoteServerMetadata where
  Name : String
  Description : String
  URL : String
deriving Repr

/-- The canonical registry document (`registry.Registry`).  Both maps are
`Option` so the Go `nil` map is distinguishable from an empty one, and
map values are `Option` because the Go maps hold pointers. -/
structure Registry where
  Version : String
  LastUpdated : String
  Servers : Option (List (String × Option ImageMetadata))
  RemoteServers : Option (List (String × Option RemoteServerMetadata))
deriving Repr

/-- The nested `server` object of an upstream envelope.
Modelled from the spec: §6.2. -/
structure UpstreamServer where
  Name : String
  Description : String
deriving Repr

/-- An upstream envelope (`registry.UpstreamServerDetail`): the nested
`server` object (the `packages` array is opaque to all embedded code
paths and omitted).  Modelled from the spec: §6.2. -/
structure UpstreamServerDetail where
  Server : UpstreamServer
deriving Repr

/-- Unmarshal a JSON value into `ImageMetadata` (unknown fields ignored,
`null` accepted for any field, type mismatches are errors). -/
def decodeImageMetadata : Json → Option ImageMetadata
  | .obj fs => do
      let name ← decStr (lookupLast fs "name")
      let description ← decStr (lookupLast fs "description")
      let tier ← decStr (lookupLast fs "tier")
      let status ← decStr (lookupLast fs "status")
      let transport ← decStr (lookupLast fs "transport")
      let tools ← decStrList (lookupLast fs "tools")
      let tags ← decStrList (lookupLast fs "tags")
      let image ← decStr (lookupLast fs "image")
      pure { Name := name, Description := description, Tier := tier, Status := status,
             Transport := transport, Tools := tools, Tags := tags, Image := image }
  | _ => none

/-- Unmarshal a JSON value into `RemoteServerMetadata`. -/
def decodeRemoteServerMetadata : Json → Option RemoteServerMetadata
  | .obj fs => do
      let name ← decStr (lookupLast fs "name")
      let description ← decStr (lookupLast fs "description")
      let url ← decStr (lookupLast fs "url")
      pure { Name := name, Description := description, URL := url }
  | _ => none

/-- Unmarshal a `map[string]*T` struct field: absent or `null` is the nil
map; an object decodes each value (`null` values become nil pointers);
any other shape is an unmarshal error. -/
def decPtrMap (dec : Json → Option α) : Option Json → Option (Option (List (String × Option α)))
  | none => some none
  | some .null => some none
  | some (.obj fs) =>
      (fs.foldr
        (fun kv acc => do
          let rest ← acc
          match kv.2 with
          | .null => pure ((kv.1, none) :: rest)
          | j => do
              let x ← dec j
              pure ((kv.1, some x) :: rest))
        (some [])).map some
  | some _ => none

/-- Unmarshal a JSON document into `registry.Registry` (top-level `null`
leaves the zero value, as `json.Unmarshal` does). -/
def decodeRegistry : Json → Option Registry
  | .null => some { Version := "", LastUpdated := "", Servers := none, RemoteServers := none }
  | .obj fs => do
      let version ← decStr (lookupLast fs "version")
      let lastUpdated ← decStr (lookupLast fs "lastUpdated")
      let servers ← decPtrMap decodeImageMetadata (lookupLast fs "servers")
      let remoteServers ← decPtrMap decodeRemoteServerMetadata (lookupLast fs "remoteServers")
      pure { Version := version, LastUpdated := lastUpdated, Servers := servers,
             RemoteServers := remoteServers }
  | _ => none

/-- Unmarshal a JSON value into `*UpstreamServerDetail`'s pointee: the
`server` field may be absent or `null` (zero value), an object, or — any
other shape — an unmarshal error. -/
def decodeUpstreamServerDetail : Json → Option UpstreamServerDetail
  | .obj fs =>
      match lookupLast fs "server" with
      | none => some { Server := { Name := "", Description := "" } }
      | some .null => some { Server := { Name := "", Description := "" } }
      | some (.obj sfs) => do
          let name ← decStr (lookupLast sfs "name")
          let description ← decStr (lookupLast sfs "description")
          pure { Server := { Name := name, Description := description } }
      | some _ => none
  | _ => none

/-- Unmarshal a JSON document into `map[string]*UpstreamServerDetail`
(top-level `null` is the nil map, indistinguishable from empty for every
embedded consumer). -/
def decodeUpstreamMap (j : Json) : Option (List (String × Option UpstreamServerDetail)) :=
  match j with
  | .null => some []
  | .obj fs =>
      fs.foldr
        (fun kv acc => do
          let rest ← acc
          match kv.2 with
          | .null => pure ((kv.1, none) :: rest)
          | v => do
              let x ← decodeUpstreamServerDetail v
              pure ((kv.1, some x) :: rest))
        (some [])
  | _ => none

/-! ### JSON encoding (`json.Marshal` model) -/

/-- Escape a string for JSON output (quote and backslash; the embedded
payloads contain no control characters). -/
def encodeJsonString (s : String) : String :=
  "\"" ++ String.mk (s.data.foldr
    (fun c acc =>
      if c = '"' then '\\' :: '"' :: acc
      else if c = '\\' then '\\' :: '\\' :: acc
      else c :: acc) []) ++ "\""

mutual

/-- Serialize a `Json` value (object fields in list order; callers that
model Go map marshalling sort the fields first, as `json.Marshal` sorts
map keys). -/
def encodeJson : Json → String
  | .null => "null"
  | .bool true => "true"
  | .bool false => "false"
  | .num raw => raw
  | .str s => encodeJsonString s
  | .arr xs => "[" ++ encodeJsonList xs ++ "]"
  | .obj fs => "\x7b" ++ encodeJsonFields fs ++ "\x7d"

/-- Serialize array elements. -/
def encodeJsonList : List Json → String
  | [] => ""
  | [j] => encodeJson j
  | j :: rest => encodeJson j ++ "," ++ encodeJsonList rest

/-- Serialize object fields. -/
def encodeJsonFields : List (String × Json) → String
  | [] => ""
  | [kv] => encodeJsonString kv.1 ++ ":" ++ encodeJson kv.2
  | kv :: rest => encodeJsonString kv.1 ++ ":" ++ encodeJson kv.2 ++ "," ++ encodeJsonFields rest

end

/-- Insert into an association list sorted by key. -/
def insertByKey (p : String × Json) : List (String × Json) → List (String × Json)
  | [] => [p]
  | q :: rest => if p.1 ≤ q.1 then p :: q :: rest else q :: insertByKey p rest

/-- Sort object fields by key, as `json.Marshal` does for Go maps. -/
def sortByKey : List (String × Json) → List (String × Json)
  | [] => []
  | p :: rest => insertByKey p (sortByKey rest)

/-! ### RegistryFormatConverter (controllers/registry_format_converter.go) -/

/-- Embeds `RegistryFormatConverter.SupportedFormats`. -/
def SupportedFormats : List String := [RegistryFormatToolHive, RegistryFormatUpstream]

/-- Embeds `normalizeFormat`: the empty format string defaults to `toolhive`. -/
def normalizeFormat (format : String) : String :=
  if format = "" then RegistryFormatToolHive else format

/-- Embeds `isFormatSupported`. -/
def isFormatSupported (format : String) (supported : List String) : Bool :=
  supported.contains format

/-- Function `registry.ConvertToolhiveToUpstream` applied to one server.  Modelled
from the spec: §4.2 — canonical→upstream wraps each server in the
`\x7bserver: \x7bname, description, ...\x7d\x7d` envelope; a nil server
pointer is a conversion error. -/
def convertServerToUpstream : Option ImageMetadata → Option UpstreamServerDetail
  | none => none
  | some img => some { Server := { Name := img.Name, Description := img.Description } }

/-- Function `registry.ConvertUpstreamToToolhive` applied to one envelope.
Modelled from the spec: §4.2 — each upstream envelope maps to an
ImageServer (the spec's drop policy for remote-only entries is not
exercised by any claim and every envelope converts to an image server
here); a nil envelope is a conversion error. -/
def convertServerToToolhive : Option UpstreamServerDetail → Option ImageMetadata
  | none => none
  | some det =>
      some { Name := det.Server.Name, Description := det.Server.Description, Tier := "",
             Status := "", Transport := "", Tools := none, Tags := none, Image := "" }

/-- Serialize an upstream envelope.  Modelled from the spec: §6.2. -/
def upstreamDetailToJson (det : UpstreamServerDetail) : Json :=
  .obj [("server", .obj [("name", .str det.Server.Name),
    ("description", .str det.Server.Description)])]

/-- Serialize an `ImageMetadata`.  Modelled from the spec: §3.1 (string
fields that are zero are omitted, as `json.Marshal` with `omitempty`
does; only `name`/`description`/`image` are populated by the embedded
conversions). -/
def imageMetadataToJson (img : ImageMetadata) : Json :=
  .obj ((if img.Name ≠ "" then [("name", Json.str img.Name)] else [])
    ++ [("description", Json.str img.Description)]
    ++ (if img.Image ≠ "" then [("image", Json.str img.Image)] else []))

/-- Embeds `RegistryFormatConverter.convertToolhiveToUpstream`: parse the
canonical document, convert every entry of `servers`, and marshal the
resulting Go map (keys sorted). -/
def convertToolhiveToUpstream (data : String) : Except String String :=
  match (parseJson data).bind decodeRegistry with
  | none => .error "failed to parse ToolHive registry format"
  | some reg =>
      let entries := reg.Servers.getD []
      let converted := entries.foldr
        (fun kv acc => do
          let rest ← acc
          let det ← convertServerToUpstream kv.2
          pure ((kv.1, det) :: rest))
        (some [])
      match converted with
      | none => .error "failed to convert server"
      | some ups =>
          .ok (encodeJson (.obj (sortByKey (ups.map fun kv => (kv.1, upstreamDetailToJson kv.2)))))

/-- Embeds `RegistryFormatConverter.convertUpstreamToToolhive`: parse the
upstream map, convert every envelope, and marshal a canonical document
with `version := "1.0.0"` and `lastUpdated := now`. -/
def convertUpstreamToToolhive (nowStr : String) (data : String) : Except String String :=
  match (parseJson data).bind decodeUpstreamMap with
  | none => .error "failed to parse upstream registry format"
  | some m =>
      let converted := m.foldr
        (fun kv acc => do
          let rest ← acc
          let img ← convertServerToToolhive kv.2
          pure ((kv.1, img) :: rest))
        (some [])
      match converted with
      | none => .error "failed to convert server"
      | some imgs =>
          .ok (encodeJson (.obj
            [("version", .str "1.0.0"),
             ("lastUpdated", .str nowStr),
             ("servers", .obj (sortByKey (imgs.map fun kv => (kv.1, imageMetadataToJson kv.2))))]))

/-- Embeds `RegistryFormatConverter.Convert`: empty data is an error, formats are
normalized, same-format is the identity, unsupported formats error, and
the two cross-format conversions dispatch to the functions above. -/
def Convert (nowStr : String) (data : String) (fromFormat toFormat : String) :
    Except String String :=
  if data = "" then .error "data cannot be empty"
  else
    let fromF := normalizeFormat fromFormat
    let toF := normalizeFormat toFormat
    if fromF = toF then .ok data
    else if ¬ isFormatSupported fromF SupportedFormats then
      .error ("unsupported source format: " ++ fromF)
    else if ¬ isFormatSupported toF SupportedFormats then
      .error ("unsupported target format: " ++ toF)
    else if fromF = RegistryFormatUpstream ∧ toF = RegistryFormatToolHive then
      convertUpstreamToToolhive nowStr data
    else if fromF = RegistryFormatToolHive ∧ toF = RegistryFormatUpstream then
      convertToolhiveToUpstream data
    else
      .error ("unsupported conversion: " ++ fromF ++ " -> " ++ toF)

/-- Embeds `RegistryFormatConverter.DetectFormat`: empty data errors; a document
that unmarshals as the canonical struct with non-empty `version` and
non-nil `servers` is `toolhive`; otherwise a document that unmarshals as
a non-empty upstream map is checked at its first entry only (the Go loop
body ends in an unconditional `break`) — a non-nil first envelope with a
non-empty nested `server.name` yields `upstream`; every other case is an
unknown-format error. -/
def DetectFormat (data : String) : Except String String :=
  if data = "" then .error "cannot detect format of empty data"
  else
    let upstreamStep : Except String String :=
      match (parseJson data).bind decodeUpstreamMap with
      | some (kv :: _) =>
          match kv.2 with
          | some det =>
              if det.Server.Name ≠ "" then .ok RegistryFormatUpstream
              else .error "unable to detect registry format: data does not match any known format"
          | none => .error "unable to detect registry format: data does not match any known format"
      | _ => .error "unable to detect registry format: data does not match any known format"
    match (parseJson data).bind decodeRegistry with
    | some reg =>
        if reg.Version ≠ "" ∧ reg.Servers.isSome then .ok RegistryFormatToolHive
        else upstreamStep
    | none => upstreamStep

/-! ### Registry API server handlers (pkg/registryapi) -/

/-- Embeds `Server.convertRegistryFormat`: detect the stored format (a detection
failure assumes the data is already in the target format) and convert
when it differs from the target. -/
def convertRegistryFormat (nowStr : String) (data : String) (targetFormat : String) :
    Except String String :=
  let currentFormat :=
    match DetectFormat data with
    | .ok f => f
    | .error _ => targetFormat
  if currentFormat ≠ targetFormat then Convert nowStr data currentFormat targetFormat
  else .ok data

/-- The outcome of `Server.handleListServers`: a 200 response carrying the
extracted servers map, its count and the format, or an HTTP error status. -/
inductive ListServersResponse where
  | ok (servers : List (String × Json)) (count : Nat) (format : String)
  | badRequest
  | internalError
deriving Repr

/-- Embeds `Server.handleListServers`: default the `format` query
parameter to `toolhive`, reject unsupported formats with 400, read the
stored bytes, convert on demand, re-parse the converted bytes, extract
the top-level `servers` key (a failed type assertion yields an empty
map), and answer 200 with the map, its length and the format.
`storedData` stands for `getRegistryData`'s outcome. -/
def handleListServers (nowStr : String) (storedData : Except Unit String)
    (formatParam : String) : ListServersResponse :=
  let requestedFormat := if formatParam = "" then RegistryFormatToolHive else formatParam
  if ¬ isFormatSupported requestedFormat SupportedFormats then .badRequest
  else
    match storedData with
    | .error _ => .internalError
    | .ok data =>
        match convertRegistryFormat nowStr data requestedFormat with
        | .error _ => .internalError
        | .ok converted =>
            match parseJson converted with
            | none => .internalError
            | some j =>
                match j with
                | .obj fields =>
                    let servers :=
                      match lookupLast fields "servers" with
                      | some (.obj sfields) => sfields
                      | _ => []
                    .ok servers servers.length requestedFormat
                | .null =>
                    -- Unmarshal of `null` into map[string]interface\x7b\x7d leaves a nil map.
                    .ok [] 0 requestedFormat
                | _ => .internalError

/-- Whether a `handleListServers` 200 response lists a server of the given
name. -/
def responseHasServer (resp : ListServersResponse) (name : String) : Bool :=
  match resp with
  | .ok servers _ _ => servers.any (fun kv => kv.1 = name)
  | _ => false

/-! ### SHA-256 (`crypto/sha256.Sum256` and `hex.EncodeToString`)

The ConfigMap handler hashes the raw payload with SHA-256.  The standard
algorithm (FIPS 180-4) is implemented here over `Nat` words reduced
modulo `2^32`. -/

/-- 32-bit addition. -/
def add32 (a b : Nat) : Nat := (a + b) % 4294967296

/-- 32-bit right rotation. -/
def rotr32 (n x : Nat) : Nat := ((x >>> n) ||| (x <<< (32 - n))) % 4294967296

/-- The 64 SHA-256 round constants. -/
def sha256K : List Nat :=
  [1116352408, 1899447441, 3049323471, 3921009573, 961987163, 1508970993,
   2453635748, 2870763221, 3624381080, 310598401, 607225278, 1426881987,
   1925078388, 2162078206, 2614888103, 3248222580, 3835390401, 4022224774,
   264347078, 604807628, 770255983, 1249150122, 1555081692, 1996064986,
   2554220882, 2821834349, 2952996808, 3210313671, 3336571891, 3584528711,
   113926993, 338241895, 666307205, 773529912, 1294757372, 1396182291,
   1695183700, 1986661051, 2177026350, 2456956037, 2730485921, 2820302411,
   3259730800, 3345764771, 3516065817, 3600352804, 4094571909, 275423344,
   430227734, 506948616, 659060556, 883997877, 958139571, 1322822218,
   1537002063, 1747873779, 1955562222, 2024104815, 2227730452, 2361852424,
   2428436474, 2756734187, 3204031479, 3329325298]

/-- The SHA-256 initial hash value. -/
def sha256H0 : List Nat :=
  [1779033703, 3144134277, 1013904242, 2773480762,
   1359893119, 2600822924, 528734635, 1541459225]

/-- Merkle–Damgård padding: append `0x80`, zeros to 56 mod 64, then the
bit length as 8 big-endian bytes. -/
def sha256Pad (msg : List Nat) : List Nat :=
  let l := msg.length
  let zeros := (((56 : Int) - (l + 1 : Int)) % 64).toNat
  let bitLen := 8 * l
  msg ++ [0x80] ++ List.replicate zeros 0
    ++ ((List.range 8).map fun i => (bitLen >>> (8 * (7 - i))) % 256)

/-- Pack big-endian bytes into 32-bit words. -/
def bytesToWords : List Nat → List Nat
  | b0 :: b1 :: b2 :: b3 :: rest => (((b0 * 256 + b1) * 256 + b2) * 256 + b3) :: bytesToWords rest
  | _ => []

/-- Split a word list into 16-word blocks (fuel-bounded so the recursion
is structural; the fuel passed by `chunk16` always suffices). -/
def chunk16Go : Nat → List Nat → List (List Nat)
  | 0, _ => []
  | _, [] => []
  | fuel + 1, ws => ws.take 16 :: chunk16Go fuel (ws.drop 16)

/-- Split a word list into 16-word blocks. -/
def chunk16 (ws : List Nat) : List (List Nat) := chunk16Go ws.length ws

/-- Extend a 16-word block to the 64-word message schedule. -/
def sha256Schedule (block : List Nat) : Array Nat :=
  (List.range 48).foldl
    (fun w _ =>
      let i := w.size
      let x15 := w.getD (i - 15) 0
      let x2 := w.getD (i - 2) 0
      let s0 := (rotr32 7 x15 ^^^ rotr32 18 x15) ^^^ (x15 >>> 3)
      let s1 := (rotr32 17 x2 ^^^ rotr32 19 x2) ^^^ (x2 >>> 10)
      w.push (add32 (add32 (w.getD (i - 16) 0) s0) (add32 (w.getD (i - 7) 0) s1)))
    block.toArray

/-- The eight SHA-256 working registers. -/
structure Sha256State where
  a : Nat
  b : Nat
  c : Nat
  d : Nat
  e : Nat
  f : Nat
  g : Nat
  h : Nat
deriving Repr

/-- One compression of a 16-word block into the running hash. -/
def sha256Compress (hs : List Nat) (block : List Nat) : List Nat :=
  let w := sha256Schedule block
  let st0 : Sha256State :=
    { a := hs.getD 0 0, b := hs.getD 1 0, c := hs.getD 2 0, d := hs.getD 3 0,
      e := hs.getD 4 0, f := hs.getD 5 0, g := hs.getD 6 0, h := hs.getD 7 0 }
  let stN := (List.range 64).foldl
    (fun st i =>
      let s1 := (rotr32 6 st.e ^^^ rotr32 11 st.e) ^^^ rotr32 25 st.e
      let ch := (st.e &&& st.f) ^^^ ((st.e ^^^ 4294967295) &&& st.g)
      let t1 := add32 (add32 (add32 st.h s1) (add32 ch (sha256K.getD i 0))) (w.getD i 0)
      let s0 := (rotr32 2 st.a ^^^ rotr32 13 st.a) ^^^ rotr32 22 st.a
      let mj := ((st.a &&& st.b) ^^^ (st.a &&& st.c)) ^^^ (st.b &&& st.c)
      let t2 := add32 s0 mj
      { a := add32 t1 t2, b := st.a, c := st.b, d := st.c,
        e := add32 st.d t1, f := st.e, g := st.f, h := st.g })
    st0
  [add32 (hs.getD 0 0) stN.a, add32 (hs.getD 1 0) stN.b, add32 (hs.getD 2 0) stN.c,
   add32 (hs.getD 3 0) stN.d, add32 (hs.getD 4 0) stN.e, add32 (hs.getD 5 0) stN.f,
   add32 (hs.getD 6 0) stN.g, add32 (hs.getD 7 0) stN.h]

/-- SHA-256 digest of a byte list, as 32 bytes. -/
def sha256Bytes (msg : List Nat) : List Nat :=
  let blocks := chunk16 (bytesToWords (sha256Pad msg))
  let final := blocks.foldl sha256Compress sha256H0
  (final.map fun word =>
    [(word >>> 24) % 256, (word >>> 16) % 256, (word >>> 8) % 256, word % 256]).flatten

/-- Lowercase hex digit. -/
def toHexNibble (n : Nat) : Char :=
  if n < 10 then Char.ofNat (48 + n) else Char.ofNat (87 + n)

/-- Embeds `hex.EncodeToString` over a byte list. -/
def hexEncode (bytes : List Nat) : String :=
  String.mk ((bytes.map fun b => [toHexNibble (b / 16), toHexNibble (b % 16)]).flatten)

/-- UTF-8 encoding of one character (Go `[]byte(string)`). -/
def utf8EncodeChar (c : Char) : List Nat :=
  let n := c.toNat
  if n < 0x80 then [n]
  else if n < 0x800 then [0xC0 ||| (n >>> 6), 0x80 ||| (n &&& 0x3F)]
  else if n < 0x10000 then
    [0xE0 ||| (n >>> 12), 0x80 ||| ((n >>> 6) &&& 0x3F), 0x80 ||| (n &&& 0x3F)]
  else
    [0xF0 ||| (n >>> 18), 0x80 ||| ((n >>> 12) &&& 0x3F), 0x80 ||| ((n >>> 6) &&& 0x3F),
     0x80 ||| (n &&& 0x3F)]

/-- Go `[]byte(s)`: the UTF-8 bytes of a string. -/
def stringToBytes (s : String) : List Nat := (s.data.map utf8EncodeChar).flatten

/-- Embeds `ConfigMapSourceHandler.calculateHash`: the hex-encoded SHA-256
of the payload bytes. -/
def calculateHash (data : String) : String := hexEncode (sha256Bytes (stringToBytes data))

/-! ### ConfigMap source handler (controllers/configmap_source_handler.go) -/

/-- Constant `ConfigMapSourceType`. -/
def ConfigMapSourceType : String := "configmap"

/-- Constant `DefaultRegistryKey`. -/
def DefaultRegistryKey : String := "registry.json"

/-- The sentinel error kinds of the source-handler package (`ErrSourceNotFound`,
`ErrInvalidData`, `ErrValidationFailed`, `ErrUnsupportedFormat`), plus the
non-sentinel wrapped errors. -/
inductive SourceErrKind where
  | sourceNotFound
  | invalidData
  | validationFailed
  | unsupportedFormat
  | otherErr
deriving DecidableEq, Repr

/-- Struct `SourceHandlerError`: source type, operation, reason, and the wrapped
error's kind. -/
structure SourceHandlerError where
  SourceType : String
  Operation : String
  Reason : String
  Kind : SourceErrKind
deriving DecidableEq, Repr

/-- The `RegistryData` `Server` struct (registry payload schema used by
the ConfigMap handler, `source_handler.go`). -/
structure Server where
  Description : String
  Tier : String
  Status : String
  Transport : String
  Tools : Option (List String)
  Tags : Option (List String)
  Image : String
  Command : Option (List String)
  Args : Option (List String)
deriving Repr

/-- The `RegistryData` struct the ConfigMap handler unmarshals payloads
into (`$schema` / `version` / `last_updated` / `servers`). -/
structure RegistryData where
  Schema : String
  Version : String
  LastUpdated : String
  Servers : Option (List (String × Server))
deriving Repr

/-- Unmarshal a JSON value into the handler's `Server` struct (`null`
leaves the zero value). -/
def decodeServer : Json → Option Server
  | .null =>
      some { Description := "", Tier := "", Status := "", Transport := "", Tools := none,
             Tags := none, Image := "", Command := none, Args := none }
  | .obj fs => do
      let description ← decStr (lookupLast fs "description")
      let tier ← decStr (lookupLast fs "tier")
      let status ← decStr (lookupLast fs "status")
      let transport ← decStr (lookupLast fs "transport")
      let tools ← decStrList (lookupLast fs "tools")
      let tags ← decStrList (lookupLast fs "tags")
      let image ← decStr (lookupLast fs "image")
      let command ← decStrList (lookupLast fs "command")
      let args ← decStrList (lookupLast fs "args")
      pure { Description := description, Tier := tier, Status := status,
             Transport := transport, Tools := tools, Tags := tags, Image := image,
             Command := command, Args := args }
  | _ => none

/-- Unmarshal a JSON document into `RegistryData`.  The `last_updated`
field is a `time.Time`, which unmarshals from a JSON string (its RFC3339
shape is not re-checked here; the embedded payloads leave it absent). -/
def decodeRegistryData : Json → Option RegistryData
  | .null => some { Schema := "", Version := "", LastUpdated := "", Servers := none }
  | .obj fs => do
      let schema ← decStr (lookupLast fs "$schema")
      let version ← decStr (lookupLast fs "version")
      let lastUpdated ← decStr (lookupLast fs "last_updated")
      let servers ←
        match lookupLast fs "servers" with
        | none => some none
        | some .null => some none
        | some (.obj sfs) =>
            (sfs.foldr
              (fun kv acc => do
                let rest ← acc
                let srv ← decodeServer kv.2
                pure ((kv.1, srv) :: rest))
              (some [])).map some
        | some _ => none
      pure { Schema := schema, Version := version, LastUpdated := lastUpdated,
             Servers := servers }
  | _ => none

/-- A `corev1.ConfigMap` as the handler reads it: the string data map,
the creation timestamp, and the managed-fields timestamps. -/
structure ConfigMapObject where
  Data : List (String × String)
  CreationTimestamp : Int
  ManagedFieldsTimes : List Int
deriving Repr

/-- The cluster state the handler's `client.Get` runs against: ConfigMaps
keyed by `(namespace, name)`. -/
structure Cluster where
  configMaps : List ((String × String) × ConfigMapObject)

/-- Cluster ConfigMap lookup (`h.client.Get`; an absent entry is the
`IsNotFound` error). -/
def getClusterConfigMap (cluster : Cluster) (namespace_ name : String) :
    Option ConfigMapObject :=
  (cluster.configMaps.find? (fun e => e.1 = (namespace_, name))).map (fun e => e.2)

/-- Struct `SyncResult` returned by a source handler. -/
structure SyncResult where
  Data : String
  Hash : String
  ServerCount : Int
  LastModified : Int
  Format : String
deriving Repr

/-- Embeds `ConfigMapSourceHandler.Validate`: the type must be
`configmap`, a configmap block with a name is required, and an empty key
defaults to `registry.json`.  Returns the (defaulted) configmap block the
Go method leaves in the mutated source. -/
def ConfigMapValidate (source : MCPRegistrySource) :
    Except SourceHandlerError ConfigMapRegistrySource :=
  if source.type_ ≠ ConfigMapSourceType then
    .error { SourceType := ConfigMapSourceType, Operation := "validate",
             Reason := "source type mismatch", Kind := .otherErr }
  else
    match source.ConfigMap with
    | none =>
        .error { SourceType := ConfigMapSourceType, Operation := "validate",
                 Reason := "configmap configuration is required", Kind := .validationFailed }
    | some cm =>
        if cm.Name = "" then
          .error { SourceType := ConfigMapSourceType, Operation := "validate",
                   Reason := "configmap name is required", Kind := .validationFailed }
        else if cm.Key = "" then .ok { cm with Key := DefaultRegistryKey }
        else .ok cm

/-- Embeds `ConfigMapSourceHandler.Sync`: validate, resolve the namespace
(defaulting to the declaration's), fetch the ConfigMap (absent ⇒
`ErrSourceNotFound`), extract the configured key (absent ⇒
`ErrSourceNotFound`), check the payload parses as `RegistryData`
(failure ⇒ `ErrInvalidData`), hash the raw payload, compute the last
modified time and server count, and run on-the-fly format conversion
toward the spec-level format before returning the `SyncResult`. -/
def ConfigMapSync (cluster : Cluster) (nowStr : String) (reg : MCPRegistry) :
    Except SourceHandlerError SyncResult :=
  match ConfigMapValidate reg.Spec.Source with
  | .error e => .error e
  | .ok cmSource =>
      let namespace_ := if cmSource.Namespace = "" then reg.Namespace else cmSource.Namespace
      match getClusterConfigMap cluster namespace_ cmSource.Name with
      | none =>
          .error { SourceType := ConfigMapSourceType, Operation := "sync",
                   Reason := "ConfigMap '" ++ cmSource.Name ++ "' not found in namespace '"
                     ++ namespace_ ++ "'",
                   Kind := .sourceNotFound }
      | some configMap =>
          match configMap.Data.lookup cmSource.Key with
          | none =>
              .error { SourceType := ConfigMapSourceType, Operation := "sync",
                       Reason := "key '" ++ cmSource.Key ++ "' not found in ConfigMap '"
                         ++ cmSource.Name ++ "'",
                       Kind := .sourceNotFound }
          | some data =>
              match (parseJson data).bind decodeRegistryData with
              | none =>
                  .error { SourceType := ConfigMapSourceType, Operation := "sync",
                           Reason := "invalid JSON in ConfigMap key '" ++ cmSource.Key ++ "'",
                           Kind := .invalidData }
              | some registryData =>
                  let hash := calculateHash data
                  let lastModified :=
                    configMap.ManagedFieldsTimes.foldl
                      (fun lm t => if t > lm then t else lm)
                      (if configMap.CreationTimestamp > 0 then configMap.CreationTimestamp
                       else 0)
                  let serverCount : Int := ((registryData.Servers.getD []).length : Int)
                  let targetFormat :=
                    if reg.Spec.Format = "" then RegistryFormatToolHive else reg.Spec.Format
                  let sourceFormat :=
                    match DetectFormat data with
                    | .ok f => f
                    | .error _ => targetFormat
                  if sourceFormat ≠ targetFormat then
                    match Convert nowStr data sourceFormat targetFormat with
                    | .error _ =>
                        .error { SourceType := ConfigMapSourceType, Operation := "conversion",
                                 Reason := "failed to convert from " ++ sourceFormat ++ " to "
                                   ++ targetFormat ++ " format",
                                 Kind := .otherErr }
                    | .ok convertedData =>
                        .ok { Data := convertedData, Hash := hash, ServerCount := serverCount,
                              LastModified := lastModified, Format := targetFormat }
                  else
                    .ok { Data := data, Hash := hash, ServerCount := serverCount,
                          LastModified := lastModified, Format := targetFormat }

/-! ### Concrete instances used by the theorems below -/

/-- A zero-valued status (fresh declaration). -/
def emptyStatus : MCPRegistryStatus :=
  { Phase := .pending, Message := "", Conditions := [], LastSyncTime := none, LastSyncHash := "",
    ServerCount := 0, SyncAttempts := 0, NextRetryTime := none, StorageRef := none,
    LastManualSyncTrigger := "" }

/-- A well-formed ConfigMap source block. -/
def sampleSource : MCPRegistrySource :=
  { type_ := "configmap", Format := "", ConfigMap := some { Name := "regdata", Namespace := "", Key := "" } }

/-- A minimal spec with a ConfigMap source and no filter or policy. -/
def sampleSpec : MCPRegistrySpec :=
  { Source := sampleSource, Format := "", SyncPolicy := none, hasFilter := false }

/-- Environment for the `ShouldSync` witnesses (its fields are never
reached from a non-Ready phase). -/
def w1Env : ShouldSyncEnv :=
  { dataChanged := .ok false, manualSyncRequested := false, intervalNextSync := .ok 0 }

/-- A declaration currently in `Syncing` phase. -/
def w1RegSyncing : MCPRegistry :=
  { Name := "reg", Namespace := "ns", Annotations := none, Spec := sampleSpec,
    Status := { emptyStatus with Phase := .syncing } }

/-- A `Failed` declaration with a future `nextRetryTime`. -/
def w1RegBackoff : MCPRegistry :=
  { Name := "reg", Namespace := "ns", Annotations := none, Spec := sampleSpec,
    Status := { emptyStatus with Phase := .failed, NextRetryTime := some 100 } }

/-- A `Pending` declaration. -/
def w1RegPending : MCPRegistry :=
  { Name := "reg", Namespace := "ns", Annotations := none, Spec := sampleSpec,
    Status := emptyStatus }

/-- Previous status for the stale-server-count run: `Ready` with three
servers recorded. -/
def c3Status : MCPRegistryStatus :=
  { emptyStatus with Phase := .ready, ServerCount := 3, LastSyncHash := "oldhash" }

/-- Declaration with a configured filter whose previous sync recorded
three servers. -/
def c3Registry : MCPRegistry :=
  { Name := "reg", Namespace := "ns", Annotations := none,
    Spec := { sampleSpec with hasFilter := true }, Status := c3Status }

/-- A sync run that succeeds with an empty post-filter registry. -/
def c3Env : SyncEnv :=
  { outcome := .success, errMsg := "", fetchHash := "newhash", fetchServerCount := 0,
    filteredRegistry := { Servers := [], RemoteServers := [] },
    storageRef := { type_ := "configmap", Name := "reg-registry-storage", Namespace := "ns" } }

/-- Stored canonical registry bytes holding one server named
`filesystem`. -/
def c4StoredData : String :=
  "\x7b\"version\":\"1.0.0\",\"servers\":\x7b\"filesystem\":\x7b\"name\":\"filesystem\",\"description\":\"Filesystem server\"\x7d\x7d\x7d"

/-- A retrievable declaration whose status has no storage reference. -/
def c5Registry : MCPRegistry :=
  { Name := "reg", Namespace := "ns", Annotations := none, Spec := sampleSpec,
    Status := emptyStatus }

/-- A finalization run where only the storage deletion fails. -/
def c6Env : FinalizeEnv :=
  { statusUpdateResult := .ok, storageDeleteResult := .err, removeFinalizerUpdateResult := .ok }

/-- An upstream-format payload whose first entry carries a `server.name`
and whose second entry does not. -/
def c8Payload : String :=
  "\x7b\"alpha\":\x7b\"server\":\x7b\"name\":\"alpha\"\x7d\x7d,\"beta\":\x7b\x7d\x7d"

/-- A canonical payload (version and servers both present). -/
def c8wToolhive : String := "\x7b\"version\":\"1.0.0\",\"servers\":\x7b\x7d\x7d"

/-- An upstream payload whose every entry carries a `server.name`. -/
def c8wUpstream : String := "\x7b\"alpha\":\x7b\"server\":\x7b\"name\":\"alpha\"\x7d\x7d\x7d"

/-- A payload matching neither format (a JSON array). -/
def c8wBad : String := "[1]"

/-- The canonical payload stored in the witness ConfigMap (empty servers
map). -/
def c9Payload : String := "\x7b\"version\":\"1.0.0\",\"servers\":\x7b\x7d\x7d"

/-- A ConfigMap carrying the canonical payload under the default key. -/
def c9ConfigMap : ConfigMapObject :=
  { Data := [("registry.json", c9Payload)], CreationTimestamp := 5, ManagedFieldsTimes := [7] }

/-- A cluster holding the witness ConfigMap. -/
def c9Cluster : Cluster := { configMaps := [(("ns", "regdata"), c9ConfigMap)] }

/-- A declaration with a ConfigMap source pointing at `regdata`. -/
def c9Registry : MCPRegistry :=
  { Name := "reg", Namespace := "ns", Annotations := none, Spec := sampleSpec,
    Status := emptyStatus }

/-- A cluster without the referenced ConfigMap. -/
def c9EmptyCluster : Cluster := { configMaps := [] }

/-- A cluster whose ConfigMap lacks the configured key. -/
def c9NoKeyCluster : Cluster :=
  { configMaps := [(("ns", "regdata"),
      { Data := [("other.json", "x")], CreationTimestamp := 0, ManagedFieldsTimes := [] })] }

/-- A cluster whose ConfigMap holds a non-JSON payload at the key. -/
def c9BadCluster : Cluster :=
  { configMaps := [(("ns", "regdata"),
      { Data := [("registry.json", "not json")], CreationTimestamp := 0,
        ManagedFieldsTimes := [] })] }

/-- The hex SHA-256 of `c9Payload` (the witness digest). -/
def c9Digest : String := "7660dbb13e557fae1f384da6a51ad51276c69718a5e27b3893aeac25afa2bc51"

/-- A failing fetch in the failure-frame witness run. -/
def c10Env : SyncEnv :=
  { outcome := .fetchError, errMsg := "boom", fetchHash := "", fetchServerCount := 0,
    filteredRegistry := { Servers := [], RemoteServers := [] },
    storageRef := { type_ := "configmap", Name := "x", Namespace := "ns" } }

/-- A previously successful declaration: every success-only status field
is populated. -/
def c10Registry : MCPRegistry :=
  { Name := "reg", Namespace := "ns", Annotations := none, Spec := sampleSpec,
    Status := { emptyStatus with
      Phase := .ready, LastSyncTime := some 50, LastSyncHash := "h", ServerCount := 2,
      StorageRef := some { type_ := "configmap", Name := "s", Namespace := "ns" },
      LastManualSyncTrigger := "t1", SyncAttempts := 1 } }

/-! ## Theorems -/

/-- C3: a successful `PerformSync` whose post-filter registry is empty
does not reset `status.serverCount`: `applyFinalStatusUpdate` only writes
`ServerCount` when it is positive, so the stale previous count (3) shows
through a `Ready` status whose stored registry holds 0 servers. -/
theorem performSync_emptySuccess_keepsStaleServerCount :
    filteredServerCount c3Registry c3Env = 0 ∧
    (performSync c3Env c3Registry 1000).1.Phase = MCPRegistryPhase.ready ∧
    (performSync c3Env c3Registry 1000).1.LastSyncHash = "newhash" ∧
    (performSync c3Env c3Registry 1000).1.ServerCount = 3 :=
  ⟨rfl, rfl, rfl, rfl⟩

/-- C4: for stored canonical data holding the server `filesystem`,
`GET /api/v1/registry/servers?format=upstream` answers 200 with an
*empty* servers map (the upstream-converted document has no top-level
`servers` key, so the extraction falls back to an empty map), while the
same request in `toolhive` format does list `filesystem`. -/
theorem handleListServers_upstream_losesServers :
    handleListServers "2024-01-01T00:00:00Z" (.ok c4StoredData) RegistryFormatUpstream =
      ListServersResponse.ok [] 0 RegistryFormatUpstream ∧
    responseHasServer
      (handleListServers "2024-01-01T00:00:00Z" (.ok c4StoredData) RegistryFormatUpstream)
      "filesystem" = false ∧
    responseHasServer
      (handleListServers "2024-01-01T00:00:00Z" (.ok c4StoredData) RegistryFormatToolHive)
      "filesystem" = true :=
  ⟨rfl, rfl, rfl⟩

/-- C5 counterexample: a declaration that is retrievable but has no
`storageRef` still gets a 200 from `/readiness`, contradicting the
claimed "200 iff retrievable and non-empty storageRef". -/
theorem handleReadiness_ignoresStorageRef :
    c5Registry.Status.StorageRef = none ∧ handleReadiness (some c5Registry) = 200 :=
  ⟨rfl, rfl⟩

/-- C5 amended: `/readiness` answers 200 exactly when the declaration is
retrievable, and 503 otherwise; the status' `storageRef` is never
consulted. -/
theorem handleReadiness_spec :
    handleReadiness none = 503 ∧ ∀ reg : MCPRegistry, handleReadiness (some reg) = 200 :=
  ⟨rfl, fun _ => rfl⟩

/-- C6 counterexample: a finalization run in which storage deletion fails
(and both cluster writes succeed) returns no error and removes the
finalizer, contradicting the claimed propagation of storage-cleanup
errors. -/
theorem reconcileDeletion_storageError_finalizes :
    reconcileDeletion c6Env true =
      { errorReturned := false, finalizerPresent := false } :=
  rfl

/-- C6 amended: during deletion, the storage-deletion outcome is ignored
("Continue with finalization even if storage cleanup fails"); an error is
propagated — keeping the finalizer — exactly when the Terminating status
update or the finalizer-removal update fails. -/
theorem reconcileDeletion_spec (env : FinalizeEnv) :
    reconcileDeletion env true =
      (if env.statusUpdateResult = .err ∨ env.removeFinalizerUpdateResult = .err then
        { errorReturned := true, finalizerPresent := true }
      else { errorReturned := false, finalizerPresent := false }) := by
  rcases env with ⟨a, b, c⟩
  cases a <;> cases b <;> cases c <;> rfl

/-- C1: `ShouldSync` follows the first-match decision order on phases:
`Syncing` yields `(false, sync-already-in-progress, nil)`; `Failed` with a
strictly future `nextRetryTime` yields
`(false, retry-backoff-active, nextRetryTime)`; every other non-Ready
phase (Pending included, and Failed without a future retry time) yields
`(true, registry-not-ready, nil)`. -/
theorem shouldSync_phase_rules (env : ShouldSyncEnv) (reg : MCPRegistry) (now : Int) :
    (reg.Status.Phase = .syncing →
      shouldSync env reg now =
        { syncNeeded := false, reason := ReasonAlreadyInProgress, nextCheck := none,
          hasError := false }) ∧
    (∀ t : Int, reg.Status.Phase = .failed → reg.Status.NextRetryTime = some t → now < t →
      shouldSync env reg now =
        { syncNeeded := false, reason := ReasonRetryBackoffActive, nextCheck := some t,
          hasError := false }) ∧
    (reg.Status.Phase ≠ .syncing → reg.Status.Phase ≠ .ready →
      (¬ ∃ t : Int, reg.Status.Phase = .failed ∧ reg.Status.NextRetryTime = some t ∧ now < t) →
      shouldSync env reg now =
        { syncNeeded := true, reason := ReasonRegistryNotReady, nextCheck := none,
          hasError := false }) := by
  refine ⟨?_, ?_, ?_⟩
  · intro h
    simp [shouldSync, h]
  · intro t hp hn hlt
    simp [shouldSync, hp, hn, hlt]
  · intro h1 h2 h3
    simp only [shouldSync]
    rw [if_neg h1, if_pos h2]
    rcases hph : reg.Status.Phase with _ | _ | _ | _ | _ | _ <;>
      rcases hnr : reg.Status.NextRetryTime with _ | t <;>
        simp_all

/-- C1 witness: the three phase rules at concrete declarations. -/
theorem shouldSync_phase_rules_witness :
    shouldSync w1Env w1RegSyncing 0 =
      { syncNeeded := false, reason := ReasonAlreadyInProgress, nextCheck := none,
        hasError := false } ∧
    shouldSync w1Env w1RegBackoff 0 =
      { syncNeeded := false, reason := ReasonRetryBackoffActive, nextCheck := some 100,
        hasError := false } ∧
    shouldSync w1Env w1RegPending 0 =
      { syncNeeded := true, reason := ReasonRegistryNotReady, nextCheck := none,
        hasError := false } :=
  ⟨(shouldSync_phase_rules w1Env w1RegSyncing 0).1 rfl,
   (shouldSync_phase_rules w1Env w1RegBackoff 0).2.1 100 rfl rfl (by decide),
   (shouldSync_phase_rules w1Env w1RegPending 0).2.2 (by decide) (by decide)
     (by rintro ⟨t, hp, _, _⟩; exact absurd hp (by decide))⟩

/-- C2: `calculateRetryInterval(attempts)` equals
`min(5min · 2^(attempts−1), 1h)` for `attempts ≥ 1` and `5min` for
`attempts ≤ 0`; in particular the intervals at attempts 1..6 (and at the
`MaxSyncAttempts` bound) are `5m, 10m, 20m, 40m, 1h, 1h, …`. -/
theorem calculateRetryInterval_spec :
    (∀ a : Int, 1 ≤ a →
      calculateRetryInterval a = min (5 * minute * 2 ^ (a - 1).toNat) (1 * hour)) ∧
    (∀ a : Int, a ≤ 0 → calculateRetryInterval a = 5 * minute) ∧
    (calculateRetryInterval 1 = 5 * minute ∧ calculateRetryInterval 2 = 10 * minute ∧
     calculateRetryInterval 3 = 20 * minute ∧ calculateRetryInterval 4 = 40 * minute ∧
     calculateRetryInterval 5 = 1 * hour ∧ calculateRetryInterval 6 = 1 * hour ∧
     calculateRetryInterval MaxSyncAttempts = 1 * hour) := by
  refine ⟨?_, ?_, by decide⟩
  · intro a ha
    simp only [calculateRetryInterval]
    rw [if_neg (by omega : ¬ a ≤ 0)]
    rcases le_or_lt a 5 with h5 | h5
    · rw [show min (a - 1) 4 = a - 1 by omega]
    · rw [show min (a - 1) 4 = 4 by omega]
      have hk : 4 ≤ (a - 1).toNat := by omega
      have h16 : (16 : Int) ≤ 2 ^ (a - 1).toNat := by
        calc (16 : Int) = 2 ^ (4 : ℕ) := by norm_num
          _ ≤ 2 ^ (a - 1).toNat := by
              apply pow_le_pow_right₀ (by norm_num) hk
      have hbig : (1 : Int) * hour ≤ 5 * minute * 2 ^ (a - 1).toNat := by
        have h1 : (5 : Int) * minute * 16 ≤ 5 * minute * 2 ^ (a - 1).toNat := by
          apply mul_le_mul_of_nonneg_left h16
          simp [minute, second, millisecond, microsecond, nanosecond]
        have h2 : (1 : Int) * hour ≤ 5 * minute * 16 := by
          simp [minute, hour, second, millisecond, microsecond, nanosecond]
        exact le_trans h2 h1
      rw [min_eq_right (by
        simp [minute, hour, second, millisecond, microsecond, nanosecond])]
      rw [min_eq_right hbig]
  · intro a ha
    simp only [calculateRetryInterval]
    rw [if_pos ha]

/-- C2 witness: the formula at attempts 3 and the floor at attempts −2. -/
theorem calculateRetryInterval_spec_witness :
    calculateRetryInterval 3 = min (5 * minute * 2 ^ ((3 : Int) - 1).toNat) (1 * hour) ∧
    calculateRetryInterval (-2) = 5 * minute :=
  ⟨calculateRetryInterval_spec.1 3 (by norm_num),
   calculateRetryInterval_spec.2.1 (-2) (by norm_num)⟩

/-- C7: the controller handles `manual-sync-no-data-changes` through the
trigger-tracking fast path only, and `UpdateManualSyncTriggerOnly` writes
only `lastManualSyncTrigger` (to the annotation value when non-empty),
returns no requeue, and leaves every other status field untouched — so
re-applying the same trigger value changes nothing else. -/
theorem updateManualSyncTriggerOnly_spec (reg : MCPRegistry) :
    reconcileSyncDispatch true ReasonManualNoChanges = SyncAction.updateTriggerOnly ∧
    (updateManualSyncTriggerOnly reg).2 = { RequeueAfter := 0 } ∧
    (updateManualSyncTriggerOnly reg).1.LastManualSyncTrigger =
      (if triggerAnnotationValue reg ≠ "" then triggerAnnotationValue reg
       else reg.Status.LastManualSyncTrigger) ∧
    (updateManualSyncTriggerOnly reg).1.Phase = reg.Status.Phase ∧
    (updateManualSyncTriggerOnly reg).1.Message = reg.Status.Message ∧
    (updateManualSyncTriggerOnly reg).1.Conditions = reg.Status.Conditions ∧
    (updateManualSyncTriggerOnly reg).1.LastSyncTime = reg.Status.LastSyncTime ∧
    (updateManualSyncTriggerOnly reg).1.LastSyncHash = reg.Status.LastSyncHash ∧
    (updateManualSyncTriggerOnly reg).1.ServerCount = reg.Status.ServerCount ∧
    (updateManualSyncTriggerOnly reg).1.SyncAttempts = reg.Status.SyncAttempts ∧
    (updateManualSyncTriggerOnly reg).1.NextRetryTime = reg.Status.NextRetryTime ∧
    (updateManualSyncTriggerOnly reg).1.StorageRef = reg.Status.StorageRef := by
  rcases hA : reg.Annotations with _ | anns <;>
    simp [updateManualSyncTriggerOnly, triggerAnnotationValue, reconcileSyncDispatch,
      ReasonManualNoChanges, hA] <;>
    split <;>
    simp_all

/-- C8 counterexample: a non-empty upstream map whose first entry carries
a `server.name` but whose second does not is detected as `upstream`, not
rejected — the detection loop breaks after the first entry. -/
theorem detectFormat_checksOnlyFirstEntry :
    DetectFormat c8Payload = .ok RegistryFormatUpstream ∧
    (parseJson c8Payload).bind decodeUpstreamMap =
      some [("alpha", some { Server := { Name := "alpha", Description := "" } }),
            ("beta", some { Server := { Name := "", Description := "" } })] :=
  ⟨rfl, rfl⟩

/-- C8 amended: `DetectFormat` returns `toolhive` when the payload
unmarshals as the canonical struct with version and servers present;
otherwise it returns `upstream` when the payload unmarshals as an
upstream map whose *first* entry is non-nil with a non-empty nested
`server.name` (only that entry is examined); in all other cases it
returns an unknown-format error. -/
theorem detectFormat_spec :
    (∀ (data : String) (r : Registry), data ≠ "" →
      (parseJson data).bind decodeRegistry = some r →
      r.Version ≠ "" → r.Servers.isSome →
      DetectFormat data = .ok RegistryFormatToolHive) ∧
    (∀ (data : String) (k : String) (d : UpstreamServerDetail)
        (rest : List (String × Option UpstreamServerDetail)), data ≠ "" →
      (∀ r : Registry, (parseJson data).bind decodeRegistry = some r →
        ¬(r.Version ≠ "" ∧ r.Servers.isSome)) →
      (parseJson data).bind decodeUpstreamMap = some ((k, some d) :: rest) →
      d.Server.Name ≠ "" →
      DetectFormat data = .ok RegistryFormatUpstream) ∧
    (∀ data : String, data ≠ "" →
      (∀ r : Registry, (parseJson data).bind decodeRegistry = some r →
        ¬(r.Version ≠ "" ∧ r.Servers.isSome)) →
      (∀ (k : String) (d : Option UpstreamServerDetail)
          (rest : List (String × Option UpstreamServerDetail)),
        (parseJson data).bind decodeUpstreamMap = some ((k, d) :: rest) →
        (d.map (fun det => det.Server.Name)).getD "" = "") →
      ∃ e, DetectFormat data = .error e) := by
  refine ⟨?_, ?_, ?_⟩
  · intro data r hne hr hv hs
    simp only [DetectFormat]
    rw [if_neg hne, hr]
    simp [hv, hs]
  · intro data k d rest hne hnc hup hname
    simp only [DetectFormat]
    rw [if_neg hne]
    rcases hreg : (parseJson data).bind decodeRegistry with _ | r
    · simp only [hreg, hup]
      simp [hname]
    · have := hnc r hreg
      simp only [hreg, hup]
      simp [hname, this]
  · intro data hne hnc hfirst
    simp only [DetectFormat]
    rw [if_neg hne]
    rcases hreg : (parseJson data).bind decodeRegistry with _ | r
    · rcases hup : (parseJson data).bind decodeUpstreamMap with _ | m
      · simp only [hreg, hup]
        exact ⟨_, rfl⟩
      · rcases m with _ | ⟨⟨k, d⟩, rest⟩
        · simp only [hreg, hup]
          exact ⟨_, rfl⟩
        · have h1 := hfirst k d rest hup
          rcases d with _ | det
          · simp only [hreg, hup]
            exact ⟨_, rfl⟩
          · simp at h1
            simp only [hreg, hup]
            simp [h1]
    · have hr := hnc r hreg
      rcases hup : (parseJson data).bind decodeUpstreamMap with _ | m
      · simp only [hreg, hup]
        simp [hr]
      · rcases m with _ | ⟨⟨k, d⟩, rest⟩
        · simp only [hreg, hup]
          simp [hr]
        · have h1 := hfirst k d rest hup
          rcases d with _ | det
          · simp only [hreg, hup]
            simp [hr]
          · simp at h1
            simp only [hreg, hup]
            simp [hr, h1]

/-- C8 witness: the amended detection rules at a canonical payload, an
all-named upstream payload, and a payload matching neither format. -/
theorem detectFormat_spec_witness :
    DetectFormat c8wToolhive = .ok RegistryFormatToolHive ∧
    DetectFormat c8wUpstream = .ok RegistryFormatUpstream ∧
    (∃ e, DetectFormat c8wBad = .error e) :=
  ⟨detectFormat_spec.1 c8wToolhive (⟨"1.0.0", "", some [], none⟩ : Registry)
      (by decide) rfl (by decide) rfl,
   detectFormat_spec.2.1 c8wUpstream "alpha" { Server := { Name := "alpha", Description := "" } }
      [] (by decide)
      (by
        intro r hr
        have hr' : r = (⟨"", "", none, none⟩ : Registry) := by
          have heq : (parseJson c8wUpstream).bind decodeRegistry =
              some (⟨"", "", none, none⟩ : Registry) := rfl
          rw [heq] at hr
          exact (Option.some.inj hr).symm
        subst hr'
        simp)
      rfl (by decide),
   detectFormat_spec.2.2 c8wBad (by decide)
      (by
        intro r hr
        have : (parseJson c8wBad).bind decodeRegistry = none := rfl
        rw [this] at hr
        exact absurd hr (by simp))
      (by
        intro k d rest hup
        have : (parseJson c8wBad).bind decodeUpstreamMap = none := rfl
        rw [this] at hup
        exact absurd hup (by simp))⟩

/-- C10: every failing `PerformSync` branch preserves the record of the
last success: the applied update leaves `lastSyncTime`, `lastSyncHash`,
`storageRef`, `serverCount` and `lastManualSyncTrigger` exactly as they
were (the composed update carries only zero values for them, and
`applyFinalStatusUpdate` applies such fields only when non-nil, non-empty
or positive), while phase becomes `Failed`, `syncAttempts` increments,
and `nextRetryTime` is taken from the composed update. -/
theorem performSync_failure_frame (env : SyncEnv) (reg : MCPRegistry) (now : Int)
    (h : env.outcome ≠ SyncOutcome.success) :
    (performSync env reg now).1.LastSyncTime = reg.Status.LastSyncTime ∧
    (performSync env reg now).1.LastSyncHash = reg.Status.LastSyncHash ∧
    (performSync env reg now).1.StorageRef = reg.Status.StorageRef ∧
    (performSync env reg now).1.ServerCount = reg.Status.ServerCount ∧
    (performSync env reg now).1.LastManualSyncTrigger = reg.Status.LastManualSyncTrigger ∧
    (performSync env reg now).1.Phase = MCPRegistryPhase.failed ∧
    (performSync env reg now).1.SyncAttempts = reg.Status.SyncAttempts + 1 ∧
    (performSync env reg now).1.NextRetryTime =
      ((performSyncUpdate env reg now).SyncData.getD syncData.zero).NextRetryTime := by
  rcases henv : env.outcome
  case success => exact absurd henv h
  case handlerError =>
    by_cases hc : reg.Status.SyncAttempts ≥ MaxHandlerCreationRetries <;>
      simp [performSync, performSyncUpdate, applyFinalStatusUpdate, syncData.zero, henv, hc]
  case validationError =>
    by_cases hc : reg.Status.SyncAttempts ≥ MaxValidationRetries <;>
      simp [performSync, performSyncUpdate, applyFinalStatusUpdate, syncData.zero, henv, hc]
  case fetchError =>
    by_cases hc : reg.Status.SyncAttempts ≥ MaxSyncAttempts <;>
      simp [performSync, performSyncUpdate, applyFinalStatusUpdate, syncData.zero, henv, hc]
  case storageError =>
    by_cases hc : reg.Status.SyncAttempts ≥ MaxSyncAttempts <;>
      simp [performSync, performSyncUpdate, applyFinalStatusUpdate, syncData.zero, henv, hc]

/-- C10 witness: a failed fetch on a previously successful declaration
keeps its success fields and records the failure. -/
theorem performSync_failure_frame_witness :
    (performSync c10Env c10Registry 99).1.LastSyncTime = some 50 ∧
    (performSync c10Env c10Registry 99).1.LastSyncHash = "h" ∧
    (performSync c10Env c10Registry 99).1.StorageRef =
      some { type_ := "configmap", Name := "s", Namespace := "ns" } ∧
    (performSync c10Env c10Registry 99).1.ServerCount = 2 ∧
    (performSync c10Env c10Registry 99).1.LastManualSyncTrigger = "t1" ∧
    (performSync c10Env c10Registry 99).1.Phase = MCPRegistryPhase.failed ∧
    (performSync c10Env c10Registry 99).1.SyncAttempts = 2 := by
  have h := performSync_failure_frame c10Env c10Registry 99 (by decide)
  exact ⟨h.1, h.2.1, h.2.2.1, h.2.2.2.1, h.2.2.2.2.1, h.2.2.2.2.2.1,
    h.2.2.2.2.2.2.1.trans (by decide)⟩

/-- C9: the ConfigMap handler's `Sync` classifies an absent ConfigMap and
an absent key as `SourceNotFound`, a payload that fails to unmarshal as
`InvalidData`, and on success returns the hex-encoded SHA-256 of the raw
payload bytes as the hash. -/
theorem configMapSync_spec :
    (∀ (cluster : Cluster) (nowStr : String) (reg : MCPRegistry)
        (cmSource : ConfigMapRegistrySource),
      ConfigMapValidate reg.Spec.Source = .ok cmSource →
      getClusterConfigMap cluster
        (if cmSource.Namespace = "" then reg.Namespace else cmSource.Namespace)
        cmSource.Name = none →
      ∃ e : SourceHandlerError,
        ConfigMapSync cluster nowStr reg = .error e ∧ e.Kind = .sourceNotFound) ∧
    (∀ (cluster : Cluster) (nowStr : String) (reg : MCPRegistry)
        (cmSource : ConfigMapRegistrySource) (cm : ConfigMapObject),
      ConfigMapValidate reg.Spec.Source = .ok cmSource →
      getClusterConfigMap cluster
        (if cmSource.Namespace = "" then reg.Namespace else cmSource.Namespace)
        cmSource.Name = some cm →
      cm.Data.lookup cmSource.Key = none →
      ∃ e : SourceHandlerError,
        ConfigMapSync cluster nowStr reg = .error e ∧ e.Kind = .sourceNotFound) ∧
    (∀ (cluster : Cluster) (nowStr : String) (reg : MCPRegistry)
        (cmSource : ConfigMapRegistrySource) (cm : ConfigMapObject) (data : String),
      ConfigMapValidate reg.Spec.Source = .ok cmSource →
      getClusterConfigMap cluster
        (if cmSource.Namespace = "" then reg.Namespace else cmSource.Namespace)
        cmSource.Name = some cm →
      cm.Data.lookup cmSource.Key = some data →
      (parseJson data).bind decodeRegistryData = none →
      ∃ e : SourceHandlerError,
        ConfigMapSync cluster nowStr reg = .error e ∧ e.Kind = .invalidData) ∧
    (∀ (cluster : Cluster) (nowStr : String) (reg : MCPRegistry)
        (cmSource : ConfigMapRegistrySource) (cm : ConfigMapObject) (data : String)
        (res : SyncResult),
      ConfigMapValidate reg.Spec.Source = .ok cmSource →
      getClusterConfigMap cluster
        (if cmSource.Namespace = "" then reg.Namespace else cmSource.Namespace)
        cmSource.Name = some cm →
      cm.Data.lookup cmSource.Key = some data →
      ConfigMapSync cluster nowStr reg = .ok res →
      res.Hash = hexEncode (sha256Bytes (stringToBytes data))) := by
  refine ⟨?_, ?_, ?_, ?_⟩
  · intro cluster nowStr reg cmSource hv hg
    simp only [ConfigMapSync, hv, hg]
    exact ⟨_, rfl, rfl⟩
  · intro cluster nowStr reg cmSource cm hv hg hk
    simp only [ConfigMapSync, hv, hg, hk]
    exact ⟨_, rfl, rfl⟩
  · intro cluster nowStr reg cmSource cm data hv hg hk hdec
    simp only [ConfigMapSync, hv, hg, hk, hdec]
    exact ⟨_, rfl, rfl⟩
  · intro cluster nowStr reg cmSource cm data res hv hg hk hok
    simp only [ConfigMapSync, hv, hg, hk] at hok
    rcases hdec : (parseJson data).bind decodeRegistryData with _ | rd
    · rw [hdec] at hok
      exact absurd hok (by simp)
    · simp only [hdec] at hok
      repeat' split at hok
      all_goals try exact Except.noConfusion hok
      all_goals (injection hok with h2; rw [← h2]; simp [calculateHash])

set_option maxRecDepth 8192 in
/-- Evaluation of the witness sync run: the success result with the
concrete digest of `c9Payload`. -/
theorem c9SyncEval :
    ConfigMapSync c9Cluster "T" c9Registry =
      .ok { Data := c9Payload, Hash := c9Digest, ServerCount := 0, LastModified := 7,
            Format := "toolhive" } := rfl

/-- C9 witness: the three error classifications and the success hash at
concrete clusters. -/
theorem configMapSync_spec_witness :
    (∃ e : SourceHandlerError,
      ConfigMapSync c9EmptyCluster "T" c9Registry = .error e ∧ e.Kind = .sourceNotFound) ∧
    (∃ e : SourceHandlerError,
      ConfigMapSync c9NoKeyCluster "T" c9Registry = .error e ∧ e.Kind = .sourceNotFound) ∧
    (∃ e : SourceHandlerError,
      ConfigMapSync c9BadCluster "T" c9Registry = .error e ∧ e.Kind = .invalidData) ∧
    (ConfigMapSync c9Cluster "T" c9Registry =
      .ok { Data := c9Payload, Hash := c9Digest, ServerCount := 0, LastModified := 7,
            Format := "toolhive" } ∧
     c9Digest = hexEncode (sha256Bytes (stringToBytes c9Payload))) := by
  refine ⟨?_, ?_, ?_, ?_, ?_⟩
  · exact configMapSync_spec.1 c9EmptyCluster "T" c9Registry
      { Name := "regdata", Namespace := "", Key := "registry.json" } rfl rfl
  · exact configMapSync_spec.2.1 c9NoKeyCluster "T" c9Registry
      { Name := "regdata", Namespace := "", Key := "registry.json" }
      { Data := [("other.json", "x")], CreationTimestamp := 0, ManagedFieldsTimes := [] }
      rfl rfl rfl
  · exact configMapSync_spec.2.2.1 c9BadCluster "T" c9Registry
      { Name := "regdata", Namespace := "", Key := "registry.json" }
      { Data := [("registry.json", "not json")], CreationTimestamp := 0,
        ManagedFieldsTimes := [] }
      "not json" rfl rfl rfl rfl
  · exact c9SyncEval
  · exact configMapSync_spec.2.2.2 c9Cluster "T" c9Registry
      { Name := "regdata", Namespace := "", Key := "registry.json" } c9ConfigMap c9Payload
      { Data := c9Payload, Hash := c9Digest, ServerCount := 0, LastModified := 7,
        Format := "toolhive" }
      rfl rfl rfl c9SyncEval

end ToolHive
